import Mathlib

/-!
Verification of the chapter acquisition and incremental-synchronization pipeline
of the TgBot repository (GetNovel package plus the bot handlers that drive it).

The embedding models the Python sources shallowly:
* the per-novel chapter file store is a map `Int → Option String` (chapter number
  to stored file content);
* network and I/O effects are oracles collected in `Env` (`fetched n` is the
  outcome of `Scraper.get_chapter_content` for chapter `n`, `readOk` / `writeOk`
  the success of the local file read / write for chapter `n`);
* Python exceptions are modelled with `Except PyErr`; a `try/except` in the
  source becomes a `match` on the `Except` value;
* the completion order of the `concurrent.futures.as_completed` loop is an
  explicit list argument `order`, a permutation of the dispatched chapter
  numbers, so that order-independence can be quantified over.
-/

namespace TgBot

/-- Python exceptions relevant to the pipeline: `ValueError` (tuple unpacking),
`IOError`, and the repository's `ChapterDownloadError` (exceptions.py). -/
inductive PyErr where
  | valueError
  | ioError
  | chapterDownloadError
deriving Repr, DecidableEq

/-- models.py `Chapter`: number, title, body markup, source URL. -/
structure Chapter where
  number : Int
  title : String
  content : String
  url : String
deriving Repr, DecidableEq

/-- models.py `Novel`, extended with the `genres` and `description` fields that
novel_list_manager.py, library_manager.py and the bot handlers read from it
(the repository has divergent `Novel` variants; the ledger code requires these
two fields, cf. spec section 9). -/
structure Novel where
  title : String
  author : String
  url : String
  cover_url : Option String := none
  total_chapters : Option Int := none
  base_chapter_url : Option String := none
  chapters : List Chapter := []
  local_cover_path : Option String := none
  novel_dir : Option String := none
  genres : List String := []
  description : Option String := none
deriving Repr, DecidableEq

/-- Python `range(start, stop)` as a list of integers. -/
def pyRange (start stop : Int) : List Int :=
  (List.range (stop - start).toNat).map (fun (i : Nat) => start + (i : Int))

/-- `novel.base_chapter_url.format(n)` where the template is
`f"{url}/chapter-{}"` (scraper.py line 65). -/
def formatChapterUrl (novelUrl : String) (n : Int) : String :=
  novelUrl ++ "/chapter-" ++ toString n

/-- Python truthiness of `a or b` for an optional integer `a`
(`None` and `0` are falsy). -/
def pyOrInt (a : Option Int) (b : Int) : Int :=
  match a with
  | some t => if t = 0 then b else t
  | none => b

/-- Effect oracles for one run over one novel. `fetched n` is the result of
`Scraper.get_chapter_content` on chapter `n`'s URL: `none` when the HTTP request
fails or the content div is missing, otherwise the joined paragraph markup (a
single string — scraper.py lines 99-111 return `Optional[str]`). `readOk n` and
`writeOk n` tell whether the local file read / write for chapter `n` succeeds. -/
structure Env where
  fetched : Int → Option String
  readOk : Int → Bool
  writeOk : Int → Bool

/-- Python tuple unpacking `a, b = s` applied to a string `s`: iterates the
string's characters, succeeding exactly when there are two, raising
`ValueError` otherwise. -/
def pyUnpack2 (s : String) : Except PyErr (String × String) :=
  match s.toList with
  | [a, b] => Except.ok (String.singleton a, String.singleton b)
  | _ => Except.error PyErr.valueError

/-- Check whether `pat` occurs at the head of `xs`. -/
def matchesAt : List Char → List Char → Bool
  | [], _ => true
  | _ :: _, [] => false
  | p :: ps, c :: cs => p == c && matchesAt ps cs

/-- Split a character list at the first occurrence of `pat`: the part before
the occurrence and the part after it, or `none` when `pat` does not occur. -/
def splitFirst (pat : List Char) : List Char → Option (List Char × List Char)
  | [] => none
  | c :: cs =>
    if matchesAt pat (c :: cs) then some ([], (c :: cs).drop pat.length)
    else
      match splitFirst pat cs with
      | some (pre, post) => some (c :: pre, post)
      | none => none

/-- Model of the BeautifulSoup h1 handling applied to stored chapter files
(`soup.find('h1')`, `title_tag.text`, `title_tag.decompose()`, `str(soup)`):
locate the first `<h1>...</h1>` element, return its text and the document with
the element removed. Faithful on the well-formed documents this program writes
(a leading h1 marker followed by paragraph markup). -/
def extractH1 (content : String) : Option (String × String) :=
  match splitFirst "<h1>".toList content.toList with
  | none => none
  | some (before, rest) =>
    match splitFirst "</h1>".toList rest with
    | none => none
    | some (inner, after) => some (⟨inner⟩, ⟨before ++ after⟩)

/-- chapter_manager.py lines 26-28 and manager.py lines 35-37: the title
recovered from a stored file's h1 marker, with the synthesized fallback
`f"Chapter {n}"`. -/
def titleFromContent (n : Int) (content : String) : String :=
  match extractH1 content with
  | some (t, _) => t
  | none => "Chapter " ++ toString n

/-- chapter_manager.py lines 89-97 and manager.py lines 183-193: recover
(title, body) from a stored chapter file, removing the h1 element from the
body; if no h1 is present the title is synthesized and the body kept whole. -/
def readStoredChapter (n : Int) (content : String) : String × String :=
  match extractH1 content with
  | some (t, r) => (t, r)
  | none => ("Chapter " ++ toString n, content)

/-- chapter_manager.py line 41 and manager.py line 56: the stored chapter file
content — `f"<h1>{title}</h1>\n{content}"`. -/
def storedChapterContent (title body : String) : String :=
  "<h1>" ++ title ++ "</h1>\n" ++ body

/-- Outcome of one chapter task: the Python call's result (returned value or
raised exception), whether a network fetch was attempted, and the file content
written, if any. -/
structure TaskOutcome where
  result : Except PyErr (Option Chapter)
  didFetch : Bool
  wrote : Option String

/-- manager.py lines 18-72: `NovelManager.download_chapter`. Local file first
(an `IOError` while reading is caught and the chapter re-downloaded); otherwise
fetch, unpack `title, content = chapter_data` (a `ValueError` for any fetched
string without exactly two characters — `get_chapter_content` returns the body
markup only), write the marked-up file and return the `Chapter`; fetch failure
and write `IOError` are caught and yield `None`. The guard on
`novel.base_chapter_url` / `novel.novel_dir` is assumed satisfied, as
`process_novel` sets both. -/
def mgrDownloadChapter (env : Env) (fs : Int → Option String) (novelUrl : String)
    (n : Int) : TaskOutcome :=
  let url := formatChapterUrl novelUrl n
  let download : TaskOutcome :=
    match env.fetched n with
    | none => ⟨Except.ok none, true, none⟩
    | some s =>
      match pyUnpack2 s with
      | Except.error e => ⟨Except.error e, true, none⟩
      | Except.ok (title, content) =>
        if env.writeOk n then
          ⟨Except.ok (some ⟨n, title, content, url⟩), true,
            some (storedChapterContent title content)⟩
        else ⟨Except.ok none, true, none⟩
  match fs n with
  | some content =>
    if env.readOk n then
      ⟨Except.ok (some ⟨n, titleFromContent n content, content, url⟩), false, none⟩
    else download
  | none => download

/-- chapter_manager.py lines 35-54: `_download_and_save_chapter`. Raises
`ChapterDownloadError` on fetch failure and on a write `IOError`; the tuple
unpack of the fetched body string raises `ValueError` for any string without
exactly two characters. On success returns the chapter and the file content
written. -/
def downloadAndSaveChapter (env : Env) (novelUrl : String) (n : Int) :
    Except PyErr (Chapter × String) :=
  match env.fetched n with
  | none => Except.error PyErr.chapterDownloadError
  | some s =>
    match pyUnpack2 s with
    | Except.error e => Except.error e
    | Except.ok (title, content) =>
      if env.writeOk n then
        Except.ok (⟨n, title, content, formatChapterUrl novelUrl n⟩,
          storedChapterContent title content)
      else Except.error PyErr.chapterDownloadError

/-- chapter_manager.py lines 20-33: `_load_chapter_from_local` — `None` when
the file is absent or its read raises `IOError`; otherwise the chapter with the
title recovered from the h1 marker and the whole file content as body. -/
def loadChapterFromLocal (env : Env) (fs : Int → Option String) (novelUrl : String)
    (n : Int) : Option Chapter :=
  match fs n with
  | none => none
  | some content =>
    if env.readOk n then
      some ⟨n, titleFromContent n content, content, formatChapterUrl novelUrl n⟩
    else none

/-- chapter_manager.py lines 56-76: `download_chapter` — local first, then
download and save, catching `ChapterDownloadError` (which yields `None`); any
other exception propagates. -/
def cmDownloadChapter (env : Env) (fs : Int → Option String) (novelUrl : String)
    (n : Int) : TaskOutcome :=
  match loadChapterFromLocal env fs novelUrl n with
  | some c => ⟨Except.ok (some c), false, none⟩
  | none =>
    match downloadAndSaveChapter env novelUrl n with
    | Except.ok (c, w) => ⟨Except.ok (some c), true, some w⟩
    | Except.error PyErr.chapterDownloadError => ⟨Except.ok none, true, none⟩
    | Except.error e => ⟨Except.error e, true, none⟩

/-- chapter_manager.py lines 110-125: the `as_completed` collection loop of
`download_missing_chapters` over completion order `order`, appending each
successful chapter to the novel's chapter list `acc`; a `ChapterDownloadError`
raised out of a task is caught and logged; any other exception propagates out
of the loop. -/
def cmCollect (env : Env) (fs : Int → Option String) (novelUrl : String) :
    List Int → List Chapter → Except PyErr (List Chapter)
  | [], acc => Except.ok acc
  | n :: rest, acc =>
    match (cmDownloadChapter env fs novelUrl n).result with
    | Except.ok (some c) => cmCollect env fs novelUrl rest (acc ++ [c])
    | Except.ok none => cmCollect env fs novelUrl rest acc
    | Except.error PyErr.chapterDownloadError => cmCollect env fs novelUrl rest acc
    | Except.error e => Except.error e

/-- manager.py lines 216-219: the `as_completed` collection loop of
`process_novel`, with no exception handling — any exception raised by
`future.result()` propagates. -/
def mgrCollect (env : Env) (fs : Int → Option String) (novelUrl : String) :
    List Int → List Chapter → Except PyErr (List Chapter)
  | [], acc => Except.ok acc
  | n :: rest, acc =>
    match (mgrDownloadChapter env fs novelUrl n).result with
    | Except.ok (some c) => mgrCollect env fs novelUrl rest (acc ++ [c])
    | Except.ok none => mgrCollect env fs novelUrl rest acc
    | Except.error e => Except.error e

/-- manager.py lines 174-205 (likewise chapter_manager.py lines 78-108): load
the chapters of the requested range already present on disk, in range order; a
read `IOError` is logged and the chapter left for re-download. Returns the
loaded chapters and the set of loaded chapter numbers. -/
def loadExistingChapters (env : Env) (fs : Int → Option String) (novelUrl : String) :
    List Int → List Chapter × List Int
  | [] => ([], [])
  | n :: rest =>
    match fs n with
    | some content =>
      if env.readOk n then
        let tr := readStoredChapter n content
        (⟨n, tr.1, tr.2, formatChapterUrl novelUrl n⟩ ::
            (loadExistingChapters env fs novelUrl rest).1,
          n :: (loadExistingChapters env fs novelUrl rest).2)
      else loadExistingChapters env fs novelUrl rest
    | none => loadExistingChapters env fs novelUrl rest

/-- manager.py lines 166-168: the end of the requested range —
`end_chapter if end_chapter is not None else (novel.total_chapters or start_chapter)`. -/
def resolveEndMgr (startChapter : Int) (endChapter totalChapters : Option Int) : Int :=
  match endChapter with
  | some e => e
  | none => pyOrInt totalChapters startChapter

/-- manager.py line 169: `range(start_chapter, end_chapter + 1)`. -/
def requestedRangeMgr (startChapter : Int) (endChapter totalChapters : Option Int) :
    List Int :=
  pyRange startChapter (resolveEndMgr startChapter endChapter totalChapters + 1)

/-- manager.py line 208: the chapter numbers of the requested range not
resolved from local files. -/
def chaptersToDownloadMgr (env : Env) (fs : Int → Option String) (novelUrl : String)
    (startChapter : Int) (endChapter totalChapters : Option Int) : List Int :=
  let nums := requestedRangeMgr startChapter endChapter totalChapters
  nums.filter (fun i => decide (i ∉ (loadExistingChapters env fs novelUrl nums).2))

/-- manager.py lines 165-219: the sync phase of `process_novel` — resolve the
range, load the locally cached chapters, download the missing ones with
completion order `order`. Returns the resulting chapter list (or the exception
that aborted the collection loop) together with the list of chapter numbers for
which download tasks were dispatched. -/
def processNovelSync (env : Env) (fs : Int → Option String) (novelUrl : String)
    (startChapter : Int) (endChapter totalChapters : Option Int) (order : List Int) :
    Except PyErr (List Chapter) × List Int :=
  (mgrCollect env fs novelUrl order
      (loadExistingChapters env fs novelUrl
        (requestedRangeMgr startChapter endChapter totalChapters)).1,
    chaptersToDownloadMgr env fs novelUrl startChapter endChapter totalChapters)

/-- Number of network fetches performed by the download tasks executed in
`order` (each dispatched task attempts at most one fetch; a task whose chapter
file is readable locally performs none). -/
def fetchesPerformed (env : Env) (fs : Int → Option String) (novelUrl : String)
    (order : List Int) : Nat :=
  (order.filter (fun n => (mgrDownloadChapter env fs novelUrl n).didFetch)).length

/-- novel_list_manager.py lines 43-52: one value of the persisted
`novel_list.json` object. -/
structure LedgerEntry where
  title : String
  author : String
  url : String
  cover_url : Option String
  total_chapters : Option Int
  genres : List String
  description : Option String
  chapters : List Int
deriving Repr, DecidableEq

/-- The persisted ledger file: a JSON object keyed by novel title, in insertion
order, as loaded by `_load_novels_data`. -/
abbrev Ledger := List (String × LedgerEntry)

/-- Python `novels_data.get(title)` on the ledger object. -/
def ledgerLookup : Ledger → String → Option LedgerEntry
  | [], _ => none
  | p :: rest, t => if p.1 = t then some p.2 else ledgerLookup rest t

/-- novel_list_manager.py line 37 / line 64:
`novels_data.get(title, {}).get('chapters', [])`. -/
def ledgerChapters (ld : Ledger) (t : String) : List Int :=
  ((ledgerLookup ld t).map LedgerEntry.chapters).getD []

/-- Python dict assignment `novels_data[title] = entry`: replace in place when
the key exists, append otherwise. -/
def ledgerSet : Ledger → String → LedgerEntry → Ledger
  | [], t, e => [(t, e)]
  | p :: rest, t, e =>
    if p.1 = t then (t, e) :: rest else p :: ledgerSet rest t e

/-- Python `sorted(list(set(l)))` on a list of integers. -/
def pySortedSet (l : List Int) : List Int :=
  List.insertionSort (fun a b => a ≤ b) l.dedup

/-- Python `max(l) if l else 0`. -/
def pyMax0 : List Int → Int
  | [] => 0
  | x :: xs => xs.foldl max x

/-- novel_list_manager.py lines 32-59: `update_novel_list` — read the full
ledger, take the sorted union of the previously recorded chapter numbers with
the numbers of the novel's in-memory chapters, and rewrite the whole ledger
with the novel's entry replaced (a write `IOError` is caught and logged; it
does not change the outcome modelled here, which is the intended file state). -/
def updateNovelList (ld : Ledger) (nv : Novel) : Ledger :=
  let existing := ledgerChapters ld nv.title
  let newly := nv.chapters.map Chapter.number
  ledgerSet ld nv.title
    { title := nv.title, author := nv.author, url := nv.url,
      cover_url := nv.cover_url, total_chapters := nv.total_chapters,
      genres := nv.genres, description := nv.description,
      chapters := pySortedSet (existing ++ newly) }

/-- novel_list_manager.py lines 61-65: `get_last_downloaded_chapter` —
`max(chapters) if chapters else 0`. -/
def getLastDownloadedChapter (ld : Ledger) (t : String) : Int :=
  pyMax0 (ledgerChapters ld t)

/-- epub.py line 42: `sorted(novel.chapters, key=lambda c: c.number)` — the
order in which chapter documents are added to the EPUB (Python's sort is
stable; insertion sort is as well). -/
def epubChapterOrder (chapters : List Chapter) : List Chapter :=
  List.insertionSort (fun a b => a.number ≤ b.number) chapters

/-- scraper.py lines 76-78: the cover file extension — the cover URL's
extension when it is one of the known image extensions, else ".jpg"
(modelling the `os.path.splitext(...)[1]` membership check by its suffix). -/
def coverExtension (coverUrl : String) : String :=
  if coverUrl.endsWith ".jpg" then ".jpg"
  else if coverUrl.endsWith ".jpeg" then ".jpeg"
  else if coverUrl.endsWith ".png" then ".png"
  else if coverUrl.endsWith ".webp" then ".webp"
  else ".jpg"

/-- scraper.py lines 71-97: `Scraper.download_cover_image`, effects as
oracles. Returns the novel's `local_cover_path` as left by the call: when
`cover_url` or `novel_dir` is unset the step is skipped; when the save path
already exists (`coverSaveExists`) or the write succeeds, the path is set;
a failed HTTP GET (`coverFetchOk = false`) is caught by the
`except requests.exceptions.RequestException` clause and yields no path; but
an `IOError` from `os.makedirs` or the file write occurs inside the `try` and
matches no `except` clause, so it propagates to the caller. -/
def download_cover_image (coverUrl novelDir : Option String)
    (coverSaveExists coverFetchOk coverWriteOk : Bool) :
    Except PyErr (Option String) :=
  match coverUrl, novelDir with
  | some url, some dir =>
    let savePath := dir ++ "/cover" ++ coverExtension url
    if coverSaveExists then Except.ok (some savePath)
    else if coverFetchOk then
      if coverWriteOk then Except.ok (some savePath)
      else Except.error PyErr.ioError
    else Except.ok none
  | _, _ => Except.ok none

/-- epub.py lines 10-106: `EpubGenerator.create_epub`, effects as oracles.
Returns `Except.ok none` when the novel directory is unset, the chapter list
is empty (the later `if not epub_chapters` check repeats this condition, one
EPUB document being created per chapter), or the final write fails (the
`except` around `write_epub`, lines 100-106, catches every exception and
returns `None`); the cover-file read (lines 28-34) runs outside any `try`, so
when `local_cover_path` is set and the file exists (`coverExistsEpub`) a
failing read raises an uncaught `IOError`; otherwise the output path
`novel_dir/title.epub` is returned. Chapter documents are added sorted by
number (line 42). -/
def create_epub (novelDir : Option String) (title : String) (chapters : List Chapter)
    (localCoverPath : Option String) (coverExistsEpub coverReadOk epubWriteOk : Bool) :
    Except PyErr (Option String) :=
  match novelDir with
  | none => Except.ok none
  | some dir =>
    if chapters.isEmpty then Except.ok none
    else if localCoverPath.isSome && coverExistsEpub && !coverReadOk then
      Except.error PyErr.ioError
    else
      let ordered := epubChapterOrder chapters
      if (ordered.isEmpty : Bool) then Except.ok none
      else if epubWriteOk then Except.ok (some (dir ++ "/" ++ title ++ ".epub"))
      else Except.ok none

/-- manager.py lines 221-234: the tail of `process_novel` after the sync
phase. `update_novel_list_json` (line 222) catches its write `IOError` and
cannot abort (its file state is modelled by `updateNovelList`); an empty
chapter list then aborts with `None` (line 224); the cover download (line 229)
may set the novel's `local_cover_path` and may raise an uncaught `IOError`
(see `download_cover_image`); `create_epub` may in turn raise an uncaught
`IOError` from its cover read, or return `None` or the output path, which
`process_novel` returns. -/
def processNovelPostSync (nv : Novel)
    (coverSaveExists coverFetchOk coverWriteOk coverExistsEpub coverReadOk
      epubWriteOk : Bool) : Except PyErr (Option String) :=
  if nv.chapters.isEmpty then Except.ok none
  else
    match download_cover_image nv.cover_url nv.novel_dir
        coverSaveExists coverFetchOk coverWriteOk with
    | Except.error e => Except.error e
    | Except.ok newCover =>
      let coverPath :=
        match newCover with
        | some p => some p
        | none => nv.local_cover_path
      create_epub nv.novel_dir nv.title nv.chapters coverPath
        coverExistsEpub coverReadOk epubWriteOk

/-- Result of the update operation. -/
inductive UpdateOutcome where
  | nothingNew
  | synced (startChapter endChapter : Int) (result : Except PyErr (List Chapter))

/-- Modelled from the spec: `NovelManager.update_novel` is invoked by
`GetNovel/__main__.py` line 16 and `download_handlers.py` line 164 but is not
defined anywhere under the repository sources. Spec section 4.4: update mode
resolves `start = lastDownloaded(title) + 1` and `end = freshTotalChapters`,
and when `lastDownloaded >= freshTotalChapters` short-circuits with a
"nothing new" result, performing no network chapter fetches; otherwise it runs
the sync phase on the resolved range. The second component is the list of
chapter numbers for which fetch tasks are dispatched. -/
def updateNovel (env : Env) (fs : Int → Option String) (ld : Ledger)
    (title novelUrl : String) (freshTotal : Int) (order : List Int) :
    UpdateOutcome × List Int :=
  let last := getLastDownloadedChapter ld title
  if last ≥ freshTotal then (UpdateOutcome.nothingNew, [])
  else
    let r := processNovelSync env fs novelUrl (last + 1) (some freshTotal) none order
    (UpdateOutcome.synced (last + 1) freshTotal r.1, r.2)

/-- novel_scraper.py lines 343-352: end-chapter resolution of the standalone
download path — `--end` if given, else `start + num_chapters - 1` if
`--num-chapters` is given, else the scraped total; then
`end_chapter = min(end_chapter, novel_info['total_chapters'])`. -/
def resolveEndStandalone (argEnd argNumChapters : Option Int)
    (startChapter totalChapters : Int) : Int :=
  let e :=
    match argEnd with
    | some e => e
    | none =>
      match argNumChapters with
      | some k => startChapter + k - 1
      | none => totalChapters
  min e totalChapters

/-- novel_scraper.py lines 148-158: `download_novel` submits one
`download_and_save_chapter` task per chapter of
`range(start_chapter, end_chapter + 1)`. -/
def downloadNovelTasks (startChapter endChapter : Int) : List Int :=
  pyRange startChapter (endChapter + 1)

/-- A chapter task whose fetch or parse failed: `Scraper.get_chapter_content`
returned `None` (scraper.py lines 99-111 turn both the network error and the
missing content div into `None`). -/
def taskFetchParseFails (env : Env) (n : Int) : Prop :=
  env.fetched n = none

/-- A chapter task whose local file write failed: the fetch produced a string
the tuple unpack accepts, and the write raises `IOError`. -/
def taskWriteFails (env : Env) (n : Int) : Prop :=
  (∃ s a b, env.fetched n = some s ∧ pyUnpack2 s = Except.ok (a, b)) ∧
    env.writeOk n = false

/-! Concrete fixtures used to instantiate the theorems below. -/

/-- An environment in which every chapter fetch fails and local reads and
writes succeed. -/
def envAllFail : Env :=
  ⟨fun _ => none, fun _ => true, fun _ => true⟩

/-- An environment in which chapter 1's fetch succeeds with realistic body
markup and every other fetch fails. -/
def envFetchOne : Env :=
  ⟨fun n => if n = 1 then some "<p>hello</p>" else none, fun _ => true, fun _ => true⟩

/-- An empty local chapter store. -/
def fsEmpty : Int → Option String := fun _ => none

/-- A local chapter store holding a well-formed stored file for chapter 1. -/
def fsOne : Int → Option String :=
  fun n => if n = 1 then some (storedChapterContent "T" "<p>x</p>") else none

/-- A sample chapter record. -/
def sampleChapter : Chapter :=
  ⟨1, "T", "<p>x</p>", "u/chapter-1"⟩

/-- A sample novel with one in-memory chapter. -/
def sampleNovel : Novel :=
  { title := "t", author := "a", url := "u", chapters := [sampleChapter] }

/-- A sample novel with a cover URL and one in-memory chapter. -/
def sampleNovelCover : Novel :=
  { title := "t", author := "a", url := "u", cover_url := some "c.png",
    chapters := [sampleChapter] }

/-- A sample ledger with one novel recorded up to chapter 3. -/
def sampleLedger : Ledger :=
  [("t", { title := "t", author := "a", url := "u", cover_url := none,
           total_chapters := some 3, genres := [], description := none,
           chapters := [1, 2, 3] })]

/-! Helper lemmas. -/

theorem mem_pyRange {i a b : Int} : i ∈ pyRange a b ↔ a ≤ i ∧ i < b := by
  unfold pyRange
  simp only [List.mem_map, List.mem_range]
  constructor
  · rintro ⟨k, hk, rfl⟩
    omega
  · rintro ⟨h1, h2⟩
    exact ⟨(i - a).toNat, by omega, by omega⟩

theorem le_foldl_max (xs : List Int) (x a : Int) (h : a ≤ x ∨ a ∈ xs) :
    a ≤ xs.foldl max x := by
  induction xs generalizing x with
  | nil => simpa using h
  | cons y ys ih =>
    simp only [List.foldl_cons]
    apply ih
    rcases h with h | h
    · exact Or.inl (le_trans h (le_max_left x y))
    · rcases List.mem_cons.mp h with rfl | h
      · exact Or.inl (le_max_right x _)
      · exact Or.inr h

theorem mem_le_pyMax0 {l : List Int} {a : Int} (h : a ∈ l) : a ≤ pyMax0 l := by
  cases l with
  | nil => cases h
  | cons x xs =>
    refine le_foldl_max xs x a ?_
    rcases List.mem_cons.mp h with rfl | h
    · exact Or.inl le_rfl
    · exact Or.inr h

theorem foldl_max_eq_or_mem (xs : List Int) (x : Int) :
    xs.foldl max x = x ∨ xs.foldl max x ∈ xs := by
  induction xs generalizing x with
  | nil => exact Or.inl rfl
  | cons y ys ih =>
    simp only [List.foldl_cons]
    rcases ih (max x y) with h | h
    · rcases max_choice x y with hm | hm
      · exact Or.inl (h.trans hm)
      · rw [h, hm]
        exact Or.inr (List.mem_cons_self y ys)
    · exact Or.inr (List.mem_cons_of_mem y h)

theorem pyMax0_mem {l : List Int} (h : l ≠ []) : pyMax0 l ∈ l := by
  cases l with
  | nil => exact absurd rfl h
  | cons x xs =>
    show xs.foldl max x ∈ x :: xs
    rcases foldl_max_eq_or_mem xs x with h | h
    · rw [h]
      exact List.mem_cons_self x xs
    · exact List.mem_cons_of_mem x h

theorem ledgerLookup_set_self (ld : Ledger) (t : String) (e : LedgerEntry) :
    ledgerLookup (ledgerSet ld t e) t = some e := by
  induction ld with
  | nil => simp [ledgerSet, ledgerLookup]
  | cons p rest ih =>
    by_cases h : p.1 = t
    · simp [ledgerSet, ledgerLookup, h]
    · simp [ledgerSet, ledgerLookup, h, ih]

theorem ledgerLookup_set_ne (ld : Ledger) (t : String) (e : LedgerEntry)
    (s : String) (h : s ≠ t) :
    ledgerLookup (ledgerSet ld t e) s = ledgerLookup ld s := by
  have hts : ¬ t = s := fun hh => h hh.symm
  induction ld with
  | nil => simp [ledgerSet, ledgerLookup, hts]
  | cons p rest ih =>
    by_cases hp : p.1 = t
    · simp [ledgerSet, ledgerLookup, hp, hts]
    · simp only [ledgerSet, if_neg hp]
      by_cases hs : p.1 = s
      · simp [ledgerLookup, hs]
      · simp [ledgerLookup, hs, ih]

theorem mem_pySortedSet {a : Int} {l : List Int} : a ∈ pySortedSet l ↔ a ∈ l := by
  unfold pySortedSet
  rw [(List.perm_insertionSort (fun a b => a ≤ b) l.dedup).mem_iff, List.mem_dedup]

theorem sorted_pySortedSet (l : List Int) : (pySortedSet l).Sorted (· < ·) := by
  have hs : (pySortedSet l).Sorted (· ≤ ·) :=
    List.sorted_insertionSort (fun a b => a ≤ b) l.dedup
  have hn : (pySortedSet l).Nodup :=
    ((List.perm_insertionSort (fun a b => a ≤ b) l.dedup).nodup_iff).mpr (List.nodup_dedup l)
  exact hs.lt_of_le hn

theorem matchesAt_append_self (p r : List Char) : matchesAt p (p ++ r) = true := by
  induction p with
  | nil => rfl
  | cons c cs ih => simp [matchesAt, ih]

theorem splitFirst_self (c0 : Char) (ps r : List Char) :
    splitFirst (c0 :: ps) ((c0 :: ps) ++ r) = some ([], r) := by
  rw [List.cons_append, splitFirst, matchesAt]
  have h1 : (c0 == c0 && matchesAt ps (ps ++ r)) = true := by
    simp [matchesAt_append_self]
  rw [h1, if_pos rfl]
  simp [List.drop_left]

theorem splitFirst_append (c0 : Char) (ps : List Char) (t r : List Char)
    (ht : ∀ c ∈ t, c ≠ c0) :
    splitFirst (c0 :: ps) (t ++ ((c0 :: ps) ++ r)) = some (t, r) := by
  induction t with
  | nil =>
    rw [List.nil_append]
    exact splitFirst_self c0 ps r
  | cons c cs ih =>
    have hc : c ≠ c0 := ht c (List.mem_cons_self c cs)
    have hrec := ih (fun x hx => ht x (List.mem_cons_of_mem c hx))
    rw [List.cons_append, splitFirst, matchesAt]
    have h1 : (c0 == c && matchesAt ps (cs ++ ((c0 :: ps) ++ r))) = false := by
      have hb : (c0 == c) = false := beq_eq_false_iff_ne.mpr (Ne.symm hc)
      simp [hb]
    rw [h1, if_neg (by simp), hrec]

theorem toList_stored (title body : String) :
    (storedChapterContent title body).toList =
      "<h1>".toList ++ (title.toList ++ ("</h1>".toList ++ ('\n' :: body.toList))) := by
  simp [storedChapterContent, String.toList, String.data_append]

theorem extractH1_stored (title body : String)
    (ht : ∀ c ∈ title.toList, c ≠ '<') :
    extractH1 (storedChapterContent title body) = some (title, "\n" ++ body) := by
  unfold extractH1
  rw [toList_stored]
  rw [show ("<h1>".toList : List Char) = '<' :: ['h', '1', '>'] from rfl]
  rw [splitFirst_self '<' ['h', '1', '>']]
  dsimp only
  rw [show ("</h1>".toList : List Char) = '<' :: ['/', 'h', '1', '>'] from rfl]
  rw [splitFirst_append '<' ['/', 'h', '1', '>'] title.toList ('\n' :: body.toList) ht]
  dsimp only
  show some (⟨title.toList⟩, ⟨[] ++ '\n' :: body.toList⟩) = some (title, "\n" ++ body)
  congr 1

theorem loadExistingChapters_all_present (env : Env) (fs : Int → Option String)
    (novelUrl : String) (nums : List Int)
    (h : ∀ n ∈ nums, (fs n).isSome ∧ env.readOk n = true) :
    (loadExistingChapters env fs novelUrl nums).2 = nums ∧
    (loadExistingChapters env fs novelUrl nums).1.map Chapter.number = nums := by
  induction nums with
  | nil => exact ⟨rfl, rfl⟩
  | cons n rest ih =>
    obtain ⟨h1, h2⟩ := h n (List.mem_cons_self n rest)
    obtain ⟨c, hc⟩ := Option.isSome_iff_exists.mp h1
    obtain ⟨ih1, ih2⟩ := ih (fun m hm => h m (List.mem_cons_of_mem n hm))
    rw [loadExistingChapters, hc]
    simp only [h2, if_pos]
    exact ⟨by rw [ih1], by simpa using ih2⟩

theorem cmCollect_erase (env : Env) (fs : Int → Option String) (novelUrl : String)
    (n : Int) (h : (cmDownloadChapter env fs novelUrl n).result = Except.ok none) :
    ∀ (order : List Int) (acc : List Chapter), n ∈ order → order.Nodup →
      cmCollect env fs novelUrl order acc = cmCollect env fs novelUrl (order.erase n) acc := by
  intro order
  induction order with
  | nil => intro acc hmem; cases hmem
  | cons m rest ih =>
    intro acc hmem hnd
    by_cases hm : m = n
    · subst hm
      rw [List.erase_cons_head]
      rw [cmCollect, h]
    · rw [List.erase_cons_tail]
      · have hmem2 : n ∈ rest := by
          rcases List.mem_cons.mp hmem with rfl | hh
          · exact absurd rfl hm
          · exact hh
        rw [cmCollect, cmCollect]
        cases hres : (cmDownloadChapter env fs novelUrl m).result with
        | ok oc =>
          cases oc with
          | some c => exact ih (acc ++ [c]) hmem2 hnd.of_cons
          | none => exact ih acc hmem2 hnd.of_cons
        | error e =>
          cases e with
          | chapterDownloadError => exact ih acc hmem2 hnd.of_cons
          | valueError => rfl
          | ioError => rfl
      · simp [hm]

theorem mgrCollect_erase (env : Env) (fs : Int → Option String) (novelUrl : String)
    (n : Int) (h : (mgrDownloadChapter env fs novelUrl n).result = Except.ok none) :
    ∀ (order : List Int) (acc : List Chapter), n ∈ order → order.Nodup →
      mgrCollect env fs novelUrl order acc = mgrCollect env fs novelUrl (order.erase n) acc := by
  intro order
  induction order with
  | nil => intro acc hmem; cases hmem
  | cons m rest ih =>
    intro acc hmem hnd
    by_cases hm : m = n
    · subst hm
      rw [List.erase_cons_head]
      rw [mgrCollect, h]
    · rw [List.erase_cons_tail]
      · have hmem2 : n ∈ rest := by
          rcases List.mem_cons.mp hmem with rfl | hh
          · exact absurd rfl hm
          · exact hh
        rw [mgrCollect, mgrCollect]
        cases hres : (mgrDownloadChapter env fs novelUrl m).result with
        | ok oc =>
          cases oc with
          | some c => exact ih (acc ++ [c]) hmem2 hnd.of_cons
          | none => exact ih acc hmem2 hnd.of_cons
        | error e => rfl
      · simp [hm]

theorem pyMax0_union_ge (ex new : List Int) (hpos : ∀ a ∈ new, 1 ≤ a) :
    pyMax0 ex ≤ pyMax0 (pySortedSet (ex ++ new)) := by
  cases ex with
  | nil =>
    show pyMax0 [] ≤ pyMax0 (pySortedSet ([] ++ new))
    rw [List.nil_append]
    by_cases hall : pySortedSet new = []
    · rw [hall]
    · have hmem : pyMax0 (pySortedSet new) ∈ pySortedSet new := pyMax0_mem hall
      have hn : pyMax0 (pySortedSet new) ∈ new := mem_pySortedSet.mp hmem
      have h1 : (1 : Int) ≤ pyMax0 (pySortedSet new) := hpos _ hn
      show (0 : Int) ≤ pyMax0 (pySortedSet new)
      omega
  | cons x xs =>
    have hbm : pyMax0 (x :: xs) ∈ x :: xs := pyMax0_mem (List.cons_ne_nil x xs)
    have hmem : pyMax0 (x :: xs) ∈ pySortedSet ((x :: xs) ++ new) :=
      mem_pySortedSet.mpr (List.mem_append_left _ hbm)
    exact mem_le_pyMax0 hmem

theorem create_epub_no_output_of_write_fail (novelDir : Option String)
    (title : String) (chapters : List Chapter) (localCoverPath : Option String)
    (coverExistsEpub coverReadOk : Bool) (p : String) :
    create_epub novelDir title chapters localCoverPath coverExistsEpub coverReadOk
      false ≠ Except.ok (some p) := by
  unfold create_epub
  cases novelDir with
  | none => simp
  | some dir =>
    split
    · simp
    · split
      · simp
      · split
        · simp
        · simp

theorem epubChapterOrder_ne_nil (c : Chapter) (cs : List Chapter) :
    epubChapterOrder (c :: cs) ≠ [] := by
  intro h
  have hp := List.perm_insertionSort (fun a b : Chapter => a.number ≤ b.number) (c :: cs)
  rw [show epubChapterOrder (c :: cs) =
    List.insertionSort (fun a b : Chapter => a.number ≤ b.number) (c :: cs) from rfl] at h
  rw [h] at hp
  exact List.cons_ne_nil c cs hp.symm.eq_nil

/-! Claim theorems. -/

/-- C1: when every chapter file of the requested closed range exists locally
and is readable — the state a fully successful first run of the sync operation
leaves behind — a second run of the `process_novel` sync phase with the
identical range dispatches no download tasks, performs zero network chapter
fetches, resolves every chapter of the range from the local chapter files, and
the returned chapter set equals the requested range. -/
theorem c1_sync_idempotent (env : Env) (fs : Int → Option String) (novelUrl : String)
    (startChapter : Int) (endChapter totalChapters : Option Int) (order : List Int)
    (hfiles : ∀ n ∈ requestedRangeMgr startChapter endChapter totalChapters, (fs n).isSome)
    (hread : ∀ n ∈ requestedRangeMgr startChapter endChapter totalChapters,
      env.readOk n = true)
    (horder : order.Perm
      (chaptersToDownloadMgr env fs novelUrl startChapter endChapter totalChapters)) :
    chaptersToDownloadMgr env fs novelUrl startChapter endChapter totalChapters = [] ∧
    fetchesPerformed env fs novelUrl order = 0 ∧
    (processNovelSync env fs novelUrl startChapter endChapter totalChapters order).1 =
      Except.ok (loadExistingChapters env fs novelUrl
        (requestedRangeMgr startChapter endChapter totalChapters)).1 ∧
    (loadExistingChapters env fs novelUrl
        (requestedRangeMgr startChapter endChapter totalChapters)).1.map Chapter.number =
      requestedRangeMgr startChapter endChapter totalChapters := by
  obtain ⟨hex, hmap⟩ := loadExistingChapters_all_present env fs novelUrl
    (requestedRangeMgr startChapter endChapter totalChapters)
    (fun n hn => ⟨hfiles n hn, hread n hn⟩)
  have htd : chaptersToDownloadMgr env fs novelUrl startChapter endChapter totalChapters
      = [] := by
    show List.filter
        (fun i => decide (i ∉ (loadExistingChapters env fs novelUrl
          (requestedRangeMgr startChapter endChapter totalChapters)).2))
        (requestedRangeMgr startChapter endChapter totalChapters) = []
    rw [hex]
    apply List.filter_eq_nil_iff.mpr
    intro a ha
    simp [ha]
  rw [htd] at horder
  have horder2 : order = [] := horder.eq_nil
  subst horder2
  exact ⟨htd, rfl, by simp [processNovelSync, mgrCollect], hmap⟩

/-- Witness for C1 at a concrete store holding chapter 1 of the range [1,1]. -/
theorem c1_sync_idempotent_witness :
    chaptersToDownloadMgr envAllFail fsOne "u" 1 (some 1) none = [] ∧
    fetchesPerformed envAllFail fsOne "u" [] = 0 ∧
    (processNovelSync envAllFail fsOne "u" 1 (some 1) none []).1 =
      Except.ok (loadExistingChapters envAllFail fsOne "u"
        (requestedRangeMgr 1 (some 1) none)).1 ∧
    (loadExistingChapters envAllFail fsOne "u"
        (requestedRangeMgr 1 (some 1) none)).1.map Chapter.number =
      requestedRangeMgr 1 (some 1) none :=
  c1_sync_idempotent envAllFail fsOne "u" 1 (some 1) none []
    (by decide) (by decide) (by decide)

/-- C2 (evaluation at the failing input): with an empty local store, requested
range [1,2], chapter 1's fetch succeeding with body markup `<p>hello</p>` and
chapter 2's fetch failing, the claim expects sync to return the set {1} (the
range minus the failed subset {2}) and to hand it, ordered, to the assembler;
instead the tuple unpack `title, content = chapter_data` of the fetched body
string raises `ValueError`, so both batch-collection loops abort with the
exception and no chapter list is produced. -/
theorem c2_partial_failure_crash :
    (processNovelSync envFetchOne fsEmpty "u" 1 (some 2) none [1, 2]).1 =
      Except.error PyErr.valueError ∧
    cmCollect envFetchOne fsEmpty "u" [1, 2] [] = Except.error PyErr.valueError := by
  exact ⟨rfl, rfl⟩

/-- C3: a chapter task of a sync batch that fails — fetch or parse failure
(`get_chapter_content` returns `None`), or a write failure after a fetch the
unpack accepts — returns `None` rather than raising, in both task variants;
consequently it contributes no chapter and removing it from the completion
order leaves both batch-collection loops' outcomes unchanged (sibling tasks
are not aborted and no exception from the failed task escapes the loop). -/
theorem c3_failed_task_isolated (env : Env) (fs : Int → Option String)
    (novelUrl : String) (n : Int) (order : List Int) (acc : List Chapter)
    (hmiss : fs n = none)
    (hfail : taskFetchParseFails env n ∨ taskWriteFails env n)
    (hmem : n ∈ order) (hnd : order.Nodup) :
    (cmDownloadChapter env fs novelUrl n).result = Except.ok none ∧
    (mgrDownloadChapter env fs novelUrl n).result = Except.ok none ∧
    cmCollect env fs novelUrl order acc =
      cmCollect env fs novelUrl (order.erase n) acc ∧
    mgrCollect env fs novelUrl order acc =
      mgrCollect env fs novelUrl (order.erase n) acc := by
  have hcm : (cmDownloadChapter env fs novelUrl n).result = Except.ok none := by
    rcases hfail with hf | ⟨⟨s, a, b, hs, hu⟩, hw⟩
    · have hf2 : env.fetched n = none := hf
      simp [cmDownloadChapter, loadChapterFromLocal, downloadAndSaveChapter, hmiss, hf2]
    · simp [cmDownloadChapter, loadChapterFromLocal, downloadAndSaveChapter,
        hmiss, hs, hu, hw]
  have hmgr : (mgrDownloadChapter env fs novelUrl n).result = Except.ok none := by
    rcases hfail with hf | ⟨⟨s, a, b, hs, hu⟩, hw⟩
    · have hf2 : env.fetched n = none := hf
      simp [mgrDownloadChapter, hmiss, hf2]
    · simp [mgrDownloadChapter, hmiss, hs, hu, hw]
  exact ⟨hcm, hmgr,
    cmCollect_erase env fs novelUrl n hcm order acc hmem hnd,
    mgrCollect_erase env fs novelUrl n hmgr order acc hmem hnd⟩

/-- Witness for C3: a batch of one task whose fetch fails. -/
theorem c3_failed_task_isolated_witness :
    (cmDownloadChapter envAllFail fsEmpty "u" 1).result = Except.ok none ∧
    (mgrDownloadChapter envAllFail fsEmpty "u" 1).result = Except.ok none ∧
    cmCollect envAllFail fsEmpty "u" [1] [] =
      cmCollect envAllFail fsEmpty "u" ([1].erase 1) [] ∧
    mgrCollect envAllFail fsEmpty "u" [1] [] =
      mgrCollect envAllFail fsEmpty "u" ([1].erase 1) [] :=
  c3_failed_task_isolated envAllFail fsEmpty "u" 1 [1] [] rfl (Or.inl rfl)
    (List.mem_singleton.mpr rfl) (List.nodup_singleton 1)

/-- C4 (modelled from the spec — `update_novel` is absent from the sources):
the update operation resolves the range as start = lastDownloaded(title) + 1
and end = the freshly fetched total chapter count, and whenever lastDownloaded
is at least the fresh total it short-circuits with the "nothing new" result,
dispatching no network chapter fetches. -/
theorem c4_update_range (env : Env) (fs : Int → Option String) (ld : Ledger)
    (title novelUrl : String) (freshTotal : Int) (order : List Int) :
    (getLastDownloadedChapter ld title ≥ freshTotal →
      updateNovel env fs ld title novelUrl freshTotal order =
        (UpdateOutcome.nothingNew, [])) ∧
    (getLastDownloadedChapter ld title < freshTotal →
      updateNovel env fs ld title novelUrl freshTotal order =
        (UpdateOutcome.synced (getLastDownloadedChapter ld title + 1) freshTotal
          (processNovelSync env fs novelUrl (getLastDownloadedChapter ld title + 1)
            (some freshTotal) none order).1,
          (processNovelSync env fs novelUrl (getLastDownloadedChapter ld title + 1)
            (some freshTotal) none order).2)) := by
  constructor
  · intro h
    simp [updateNovel, h]
  · intro h
    have h2 : ¬ getLastDownloadedChapter ld title ≥ freshTotal := not_le.mpr h
    simp [updateNovel, h2]

/-- Witness for C4: a ledger recorded up to chapter 3, updated against fresh
totals 3 (nothing new) and 4 (range [4,4]). -/
theorem c4_update_range_witness :
    updateNovel envAllFail fsEmpty sampleLedger "t" "u" 3 [] =
      (UpdateOutcome.nothingNew, []) ∧
    updateNovel envAllFail fsEmpty sampleLedger "t" "u" 4 [4] =
      (UpdateOutcome.synced (getLastDownloadedChapter sampleLedger "t" + 1) 4
        (processNovelSync envAllFail fsEmpty "u"
          (getLastDownloadedChapter sampleLedger "t" + 1) (some 4) none [4]).1,
        (processNovelSync envAllFail fsEmpty "u"
          (getLastDownloadedChapter sampleLedger "t" + 1) (some 4) none [4]).2) :=
  ⟨(c4_update_range envAllFail fsEmpty sampleLedger "t" "u" 3 []).1 (by decide),
   (c4_update_range envAllFail fsEmpty sampleLedger "t" "u" 4 [4]).2 (by decide)⟩

/-- C5: the ledger value `lastDownloaded` is 0 for a title never recorded, and
one sync-and-record operation (`update_novel_list` on a novel whose chapter
numbers are positive, as the data model requires) never decreases it — hence
along any sequence of such operations on the same title it is monotonically
non-decreasing. -/
theorem c5_ledger_monotone (ld : Ledger) (nv : Novel) (t : String)
    (hpos : ∀ c ∈ nv.chapters, 1 ≤ c.number)
    (hnew : ledgerLookup ld t = none) :
    getLastDownloadedChapter ld t = 0 ∧
    getLastDownloadedChapter ld nv.title ≤
      getLastDownloadedChapter (updateNovelList ld nv) nv.title := by
  constructor
  · unfold getLastDownloadedChapter ledgerChapters
    rw [hnew]
    rfl
  · have hafter : ledgerChapters (updateNovelList ld nv) nv.title =
        pySortedSet (ledgerChapters ld nv.title ++ nv.chapters.map Chapter.number) := by
      unfold updateNovelList ledgerChapters
      rw [ledgerLookup_set_self]
      rfl
    unfold getLastDownloadedChapter
    rw [hafter]
    refine pyMax0_union_ge _ _ ?_
    intro a ha
    obtain ⟨c, hc, rfl⟩ := List.mem_map.mp ha
    exact hpos c hc

/-- Witness for C5 at a concrete ledger and novel. -/
theorem c5_ledger_monotone_witness :
    getLastDownloadedChapter sampleLedger "x" = 0 ∧
    getLastDownloadedChapter sampleLedger sampleNovel.title ≤
      getLastDownloadedChapter (updateNovelList sampleLedger sampleNovel)
        sampleNovel.title :=
  c5_ledger_monotone sampleLedger sampleNovel "x" (by decide) (by decide)

/-- C6: the ledger record operation replaces the novel's entry with one
carrying exactly the fields {title, author, url, coverUrl, totalChapters,
genres, description, chapters}, where the chapters array is the union of the
previously recorded numbers and the new in-memory chapter numbers, sorted
strictly ascending (so deduplicated), and every other title's entry of the
rewritten ledger file is preserved. -/
theorem c6_ledger_record (ld : Ledger) (nv : Novel) (s : String) (hs : s ≠ nv.title) :
    ledgerLookup (updateNovelList ld nv) nv.title = some
      { title := nv.title, author := nv.author, url := nv.url,
        cover_url := nv.cover_url, total_chapters := nv.total_chapters,
        genres := nv.genres, description := nv.description,
        chapters := pySortedSet (ledgerChapters ld nv.title ++
          nv.chapters.map Chapter.number) } ∧
    (∀ a : Int, a ∈ pySortedSet (ledgerChapters ld nv.title ++
        nv.chapters.map Chapter.number) ↔
      a ∈ ledgerChapters ld nv.title ∨ a ∈ nv.chapters.map Chapter.number) ∧
    (pySortedSet (ledgerChapters ld nv.title ++
      nv.chapters.map Chapter.number)).Sorted (· < ·) ∧
    ledgerLookup (updateNovelList ld nv) s = ledgerLookup ld s := by
  refine ⟨?_, ?_, sorted_pySortedSet _, ?_⟩
  · unfold updateNovelList
    exact ledgerLookup_set_self _ _ _
  · intro a
    rw [mem_pySortedSet, List.mem_append]
  · unfold updateNovelList
    exact ledgerLookup_set_ne _ _ _ _ hs

/-- Witness for C6 at a concrete ledger and novel. -/
theorem c6_ledger_record_witness :
    ledgerLookup (updateNovelList sampleLedger sampleNovel) sampleNovel.title = some
      { title := sampleNovel.title, author := sampleNovel.author,
        url := sampleNovel.url, cover_url := sampleNovel.cover_url,
        total_chapters := sampleNovel.total_chapters, genres := sampleNovel.genres,
        description := sampleNovel.description,
        chapters := pySortedSet (ledgerChapters sampleLedger sampleNovel.title ++
          sampleNovel.chapters.map Chapter.number) } ∧
    (∀ a : Int, a ∈ pySortedSet (ledgerChapters sampleLedger sampleNovel.title ++
        sampleNovel.chapters.map Chapter.number) ↔
      a ∈ ledgerChapters sampleLedger sampleNovel.title ∨
        a ∈ sampleNovel.chapters.map Chapter.number) ∧
    (pySortedSet (ledgerChapters sampleLedger sampleNovel.title ++
      sampleNovel.chapters.map Chapter.number)).Sorted (· < ·) ∧
    ledgerLookup (updateNovelList sampleLedger sampleNovel) "x" =
      ledgerLookup sampleLedger "x" :=
  c6_ledger_record sampleLedger sampleNovel "x" (by decide)

/-- C7 counterexample: the claim that a written chapter reads back with exactly
the written title and body fails — writing title "T" and body `<p>x</p>` reads
back with the separator newline still at the head of the body. -/
theorem c7_roundtrip_counterexample :
    readStoredChapter 5 (storedChapterContent "T" "<p>x</p>") ≠ ("T", "<p>x</p>") ∧
    readStoredChapter 5 (storedChapterContent "T" "<p>x</p>") = ("T", "\n<p>x</p>") := by
  exact ⟨by decide, by decide⟩

/-- C7 amended: a chapter written by the local chapter store (title embedded
as a leading h1 marker) and read back yields exactly the written title and the
written body with the marker's separator newline prepended, for every title
free of markup characters. -/
theorem c7_roundtrip_amended (n : Int) (title body : String)
    (ht : ∀ c ∈ title.toList, c ≠ '<') :
    readStoredChapter n (storedChapterContent title body) = (title, "\n" ++ body) := by
  unfold readStoredChapter
  rw [extractH1_stored title body ht]

/-- Witness for the amended C7 at concrete title and body. -/
theorem c7_roundtrip_amended_witness :
    readStoredChapter 5 (storedChapterContent "T" "B") = ("T", "\n" ++ "B") :=
  c7_roundtrip_amended 5 "T" "B" (by decide)

/-- C8 counterexample: the empty chapter set is not the sole hard failure
condition after sync — with a nonempty chapter set, benign cover steps and a
failing EPUB write, the post-sync phase of `process_novel` still fails (it
returns `None`) and produces no output. -/
theorem c8_sole_failure_counterexample :
    processNovelPostSync { sampleNovel with novel_dir := some "d" }
      false false false false false false = Except.ok none ∧
    ({ sampleNovel with novel_dir := some "d" } : Novel).chapters ≠ [] := by
  exact ⟨rfl, by decide⟩

/-- C8 amended: with the novel directory set (as `process_novel` guarantees
before the sync phase), after the sync step: (1) an empty chapter result set
always fails the operation with no EPUB and raises nothing; but it is not the
sole hard failure condition — (2) when the EPUB write fails no EPUB path is
ever produced, whatever the other outcomes; (3) when the cover-image file
write raises `IOError` (only `RequestException` is caught around it), the
operation aborts with the uncaught exception; (4) likewise when the cover file
is present but its read in the EPUB step fails; and (5) in the absence of
cover I/O (no cover URL, no cached cover path) with a succeeding EPUB write, a
nonempty chapter set always produces the EPUB — the empty set is the sole
failure condition only then. -/
theorem c8_failure_amended (nv : Novel) (d url : String)
    (coverSaveExists coverFetchOk coverWriteOk coverExistsEpub coverReadOk
      epubWriteOk : Bool) :
    (nv.chapters = [] →
      processNovelPostSync { nv with novel_dir := some d } coverSaveExists
        coverFetchOk coverWriteOk coverExistsEpub coverReadOk epubWriteOk =
        Except.ok none) ∧
    (epubWriteOk = false → ∀ p : String,
      processNovelPostSync { nv with novel_dir := some d } coverSaveExists
        coverFetchOk coverWriteOk coverExistsEpub coverReadOk epubWriteOk ≠
        Except.ok (some p)) ∧
    (nv.cover_url = some url → coverSaveExists = false → coverFetchOk = true →
      coverWriteOk = false → nv.chapters ≠ [] →
      processNovelPostSync { nv with novel_dir := some d } coverSaveExists
        coverFetchOk coverWriteOk coverExistsEpub coverReadOk epubWriteOk =
        Except.error PyErr.ioError) ∧
    (nv.cover_url = some url → coverSaveExists = true → coverExistsEpub = true →
      coverReadOk = false → nv.chapters ≠ [] →
      processNovelPostSync { nv with novel_dir := some d } coverSaveExists
        coverFetchOk coverWriteOk coverExistsEpub coverReadOk epubWriteOk =
        Except.error PyErr.ioError) ∧
    (nv.cover_url = none → nv.local_cover_path = none → nv.chapters ≠ [] →
      epubWriteOk = true →
      processNovelPostSync { nv with novel_dir := some d } coverSaveExists
        coverFetchOk coverWriteOk coverExistsEpub coverReadOk epubWriteOk =
        Except.ok (some (d ++ "/" ++ nv.title ++ ".epub"))) := by
  refine ⟨?_, ?_, ?_, ?_, ?_⟩
  · intro h
    simp [processNovelPostSync, h]
  · intro hw p
    subst hw
    dsimp only [processNovelPostSync]
    by_cases hch : nv.chapters.isEmpty
    · simp [hch]
    · rw [if_neg hch]
      rcases hv : download_cover_image nv.cover_url (some d) coverSaveExists
          coverFetchOk coverWriteOk with e | newCover
      · simp
      · dsimp only
        exact create_epub_no_output_of_write_fail _ _ _ _ _ _ p
  · intro hurl hcse hcfo hcwo hch
    cases hc : nv.chapters with
    | nil => exact absurd hc hch
    | cons c cs =>
      simp [processNovelPostSync, hc, download_cover_image, hurl, hcse, hcfo, hcwo]
  · intro hurl hcse hcee hcro hch
    cases hc : nv.chapters with
    | nil => exact absurd hc hch
    | cons c cs =>
      simp [processNovelPostSync, hc, download_cover_image, hurl, hcse,
        create_epub, hcee, hcro]
  · intro hurl hlcp hch hw
    cases hc : nv.chapters with
    | nil => exact absurd hc hch
    | cons c cs =>
      have hne : epubChapterOrder (c :: cs) ≠ [] := epubChapterOrder_ne_nil c cs
      simp [processNovelPostSync, hc, download_cover_image, hurl, hlcp,
        create_epub, hne, List.isEmpty_iff, hw]

/-- Witness for the amended C8, exercising all five conjuncts at concrete
novels and oracle outcomes. -/
theorem c8_failure_amended_witness :
    processNovelPostSync { { sampleNovel with chapters := [] } with novel_dir := some "d" }
      true true true true true true = Except.ok none ∧
    processNovelPostSync { sampleNovel with novel_dir := some "d" }
      true true true true true false ≠ Except.ok (some "d/t.epub") ∧
    processNovelPostSync { sampleNovelCover with novel_dir := some "d" }
      false true false true true true = Except.error PyErr.ioError ∧
    processNovelPostSync { sampleNovelCover with novel_dir := some "d" }
      true true true true false true = Except.error PyErr.ioError ∧
    processNovelPostSync { sampleNovel with novel_dir := some "d" }
      true true true true true true =
      Except.ok (some ("d" ++ "/" ++ sampleNovel.title ++ ".epub")) :=
  ⟨(c8_failure_amended { sampleNovel with chapters := [] } "d" "c.png"
      true true true true true true).1 rfl,
   (c8_failure_amended sampleNovel "d" "c.png"
      true true true true true false).2.1 rfl "d/t.epub",
   (c8_failure_amended sampleNovelCover "d" "c.png"
      false true false true true true).2.2.1 rfl rfl rfl rfl (by decide),
   (c8_failure_amended sampleNovelCover "d" "c.png"
      true true true true false true).2.2.2.1 rfl rfl rfl rfl (by decide),
   (c8_failure_amended sampleNovel "d" "c.png"
      true true true true true true).2.2.2.2 rfl rfl (by decide) rfl⟩

/-- C9 (evaluation at the failing input): for a chapter page whose content div
yields the body markup `<p>hello</p>`, the parse step returns a single string
rather than a {title, bodyMarkup} pair, so the downstream unpack raises
`ValueError`: `_download_and_save_chapter` raises instead of writing the
combined title+body and returning a Chapter record, and
`NovelManager.download_chapter` propagates the same exception. -/
theorem c9_parse_shape_bug :
    pyUnpack2 "<p>hello</p>" = Except.error PyErr.valueError ∧
    downloadAndSaveChapter envFetchOne "u" 1 = Except.error PyErr.valueError ∧
    (cmDownloadChapter envFetchOne fsEmpty "u" 1).result =
      Except.error PyErr.valueError ∧
    (mgrDownloadChapter envFetchOne fsEmpty "u" 1).result =
      Except.error PyErr.valueError ∧
    (mgrDownloadChapter envFetchOne fsEmpty "u" 1).wrote = none := by
  exact ⟨rfl, rfl, rfl, rfl, rfl⟩

/-- C10: in the standalone full-download path, the resolved end chapter is
min(requested end, observed total), and every chapter number for which a fetch
task is dispatched is at most the total chapter count observed at
metadata-fetch time. -/
theorem c10_range_capped (argEnd argNumChapters : Option Int)
    (startChapter totalChapters : Int) :
    (∀ e : Int, resolveEndStandalone (some e) argNumChapters startChapter totalChapters =
      min e totalChapters) ∧
    (∀ i ∈ downloadNovelTasks startChapter
        (resolveEndStandalone argEnd argNumChapters startChapter totalChapters),
      i ≤ totalChapters) := by
  constructor
  · intro e
    rfl
  · intro i hi
    unfold downloadNovelTasks at hi
    have h1 := mem_pyRange.mp hi
    have h2 : resolveEndStandalone argEnd argNumChapters startChapter totalChapters ≤
        totalChapters := by
      unfold resolveEndStandalone
      exact min_le_right _ _
    omega

/-- Witness for C10 with requested end 10 against observed total 5. -/
theorem c10_range_capped_witness :
    resolveEndStandalone (some 10) none 1 5 = min 10 5 ∧ (3 : Int) ≤ 5 :=
  ⟨(c10_range_capped (some 10) none 1 5).1 10,
   (c10_range_capped (some 10) none 1 5).2 3 (by decide)⟩

end TgBot
